import Mathlib

/-!
Shallow embedding of `src/my_app.py` (a Dash dashboard over a Netflix
catalog table).  The pandas dataframe is modelled as a `List Record`;
absent cells (`NaN`) are `Option.none`.  External collaborators
(`pd.to_datetime`, the plotting library) are modelled as parameters or
omitted styling, exactly as the spec scopes them out.
-/

namespace Netflixy

/-- Matching of a pattern against the head of a character list
(both lists compared element by element, pattern exhausted first). -/
def leadMatch : List Char → List Char → Bool
  | [], _ => true
  | _ :: _, [] => false
  | p :: ps, h :: hs => p == h && leadMatch ps hs

/-- Literal substring containment on character lists: `sliceIn pat hay`
is true when `pat` occurs contiguously inside `hay`. -/
def sliceIn (pat : List Char) : List Char → Bool
  | [] => pat.isEmpty
  | h :: t => leadMatch pat (h :: t) || sliceIn pat t

/-- Embeds Python substring containment (`pat in hay`, and pandas
`Series.str.contains` for the literal patterns used here: the country
names and the tokens "min" / "Season" contain no regex metacharacters,
so regex containment coincides with literal containment). -/
def containsSub (hay pat : String) : Bool :=
  sliceIn pat.data hay.data

/-- Splitting on a separator `c :: cs`, consuming at most one character
of fuel per step so the recursion is structural (the initial fuel is the
length of the list, which never runs out on the calls made here). -/
def splitListF (c : Char) (cs : List Char) : Nat → List Char → List (List Char)
  | _, [] => [[]]
  | 0, h :: t => [h :: t]
  | fuel + 1, h :: t =>
    if leadMatch (c :: cs) (h :: t) then
      [] :: splitListF c cs fuel (t.drop cs.length)
    else
      match splitListF c cs fuel t with
      | [] => [[h]]
      | tok :: rest => (h :: tok) :: rest

/-- Embeds Python `str.split(sep)` for a non-empty separator, as used by
pandas `Series.str.split(', ')`: `"".split(", ")` is `[""]`, and in
general the result has one token per occurrence of the separator plus
one. -/
def pySplit (s sep : String) : List String :=
  match sep.data with
  | [] => [s]
  | c :: cs => (splitListF c cs s.data.length s.data).map String.mk

/-- Value of a digit character. -/
def digitVal (c : Char) : Nat := c.toNat - 48

/-- Embeds `Series.str.extract(r'(\d+)')`: the first maximal run of
digits in the string, as a number, or `none` when the string has no
digit. -/
def firstIntToken (s : String) : Option Nat :=
  let l := s.data.dropWhile (fun c => !c.isDigit)
  match l with
  | [] => none
  | _ :: _ => some ((l.takeWhile Char.isDigit).foldl (fun n c => 10 * n + digitVal c) 0)

/-- One raw CSV row, before cleaning.  `release_year` is already
numeric-or-absent: the success or failure of the `pd.to_numeric(...,
errors='coerce')` coercion at line 49 of the source is reflected in the
`Option`. -/
structure RawRecord where
  title : Option String
  type : Option String
  country : Option String
  date_added : Option String
  release_year : Option Int
  rating : Option String
  duration : Option String
  listed_in : Option String
deriving DecidableEq, Repr

/-- One row of the prepared (and genre-exploded) dataframe `df`. -/
structure Record where
  title : Option String
  type : Option String
  country : Option String
  year_added : Option Int
  release_year : Option Int
  rating : Option String
  duration : Option String
  duration_num : Option Nat
  duration_unit : Option String
  movie_duration : Option Nat
  tv_seasons : Option Nat
  genres : Option String
deriving DecidableEq, Repr

/-- Embeds `df['listed_in'].str.split(', ')` for one row: `NaN` stays
absent, a present string is split on the literal separator ", ". -/
def genreList (r : RawRecord) : Option (List String) :=
  r.listed_in.map (fun s => pySplit s ", ")

/-- The cleaning steps of lines 26-49 of the source applied to one raw
row, producing the row with one (optional) genre cell.  `dateYear`
stands for the external `pd.to_datetime(..., errors='coerce').dt.year`
parser: absent or unparseable dates give `none`. -/
def baseRecord (dateYear : String → Option Int) (r : RawRecord) (g : Option String) :
    Record :=
  let dnum := r.duration.bind firstIntToken
  { title := r.title
    type := r.type
    country := some (r.country.getD "Unknown")
    year_added := r.date_added.bind dateYear
    release_year := r.release_year
    rating := some (r.rating.getD "Unknown")
    duration := r.duration
    duration_num := dnum
    duration_unit :=
      match r.duration with
      | none => none
      | some s =>
        if containsSub s "min" then some "min"
        else if containsSub s "Season" then some "season" else none
    movie_duration := if r.type = some "Movie" then dnum else none
    tv_seasons := if r.type = some "TV Show" then dnum else none
    genres := g }

/-- Embeds `df.explode('genres')` for one row.  pandas `explode` keeps a
scalar (here the `NaN` left by splitting an absent `listed_in`) as a
single row whose exploded cell is that scalar; a present list of `N`
tokens yields `N` rows. -/
def explodeRecord (dateYear : String → Option Int) (r : RawRecord) : List Record :=
  match genreList r with
  | none => [baseRecord dateYear r none]
  | some gs => gs.map (fun g => baseRecord dateYear r (some g))

/-- The module-level prepared dataframe `df` of the source: every raw
row cleaned and genre-exploded (lines 26-49). -/
def prepare (dateYear : String → Option Int) (raws : List RawRecord) : List Record :=
  raws.flatMap (explodeRecord dateYear)

/-- The three filter inputs of the callback: the year slider pair and
the two dropdown values, `"All"` being the no-filter sentinel exactly as
in the source. -/
structure Filters where
  yearLo : Int
  yearHi : Int
  selectedType : String
  selectedCountry : String
deriving DecidableEq, Repr

/-- Embeds `(df['release_year'] >= lo) & (df['release_year'] <= hi)`:
`NaN` compares false on both sides, so absent years are dropped. -/
def yearKeep (f : Filters) (r : Record) : Bool :=
  match r.release_year with
  | none => false
  | some y => decide (f.yearLo ≤ y) && decide (y ≤ f.yearHi)

/-- Embeds the `selected_type != 'All'` guard and
`filtered_df['type'] == selected_type` (`NaN == x` is false). -/
def typeKeep (f : Filters) (r : Record) : Bool :=
  if f.selectedType = "All" then true
  else
    match r.type with
    | none => false
    | some t => decide (t = f.selectedType)

/-- Embeds the `selected_country != 'All'` guard and
`filtered_df['country'].str.contains(selected_country, na=False)`. -/
def countryKeep (f : Filters) (r : Record) : Bool :=
  if f.selectedCountry = "All" then true
  else
    match r.country with
    | none => false
    | some c => containsSub c f.selectedCountry

/-- First filtering stage of `update_dashboard`: the year-range mask. -/
def yearFiltered (rows : List Record) (f : Filters) : List Record :=
  rows.filter (yearKeep f)

/-- The `filtered_df` of `update_dashboard` (lines 132-141): year mask,
then type mask, then country mask, each a further restriction. -/
def filtered_df (rows : List Record) (f : Filters) : List Record :=
  ((yearFiltered rows f).filter (typeKeep f)).filter (countryKeep f)

/-- Number of rows whose projected cell is present and equal to `v`:
the count that `Series.value_counts()` assigns to the value `v`
(`value_counts` skips `NaN`). -/
def countVal {β : Type} [DecidableEq β] (proj : Record → Option β)
    (rows : List Record) (v : β) : Nat :=
  (rows.filter (fun r => decide (proj r = some v))).length

/-- The present (non-`NaN`) cells of a column, in row order. -/
def presentVals {β : Type} [DecidableEq β] (proj : Record → Option β)
    (rows : List Record) : List β :=
  rows.filterMap proj

/-- First-occurrence deduplication, used to enumerate the distinct
values of a column. -/
def uniqueKeep {β : Type} [DecidableEq β] (l : List β) : List β :=
  l.foldl (fun acc x => if x ∈ acc then acc else acc ++ [x]) []

/-- Stable descending insertion by count. -/
def insertDesc {β : Type} (x : β × Nat) : List (β × Nat) → List (β × Nat)
  | [] => [x]
  | y :: ys => if y.2 ≤ x.2 then x :: y :: ys else y :: insertDesc x ys

/-- Stable sort by count, descending. -/
def sortDesc {β : Type} : List (β × Nat) → List (β × Nat)
  | [] => []
  | x :: xs => insertDesc x (sortDesc xs)

/-- Embeds `Series.value_counts()`: the distinct present values paired
with their multiplicities, sorted by count descending.  pandas leaves
the order of tied counts unspecified; this embedding pins the
deterministic stable first-occurrence order, and no theorem below
depends on the order of ties. -/
def value_counts {β : Type} [DecidableEq β] (proj : Record → Option β)
    (rows : List Record) : List (β × Nat) :=
  sortDesc ((uniqueKeep (presentVals proj rows)).map (fun v => (v, countVal proj rows v)))

/-- The country dropdown options of lines 92-94 of the source (the
`'All'` entry aside): `df['country'].value_counts().head(10).index`,
computed on the module-level (genre-exploded) dataframe. -/
def countryOptions (rows : List Record) : List String :=
  ((value_counts (fun r => r.country) rows).take 10).map Prod.fst

/-- Count of one genre in chart 2's bar data. -/
def genreCount (rows : List Record) (g : String) : Nat :=
  countVal (fun r => r.genres) rows g

/-- Count of one type in chart 1's pie data. -/
def typeCount (rows : List Record) (t : String) : Nat :=
  countVal (fun r => r.type) rows t

/-- The grouping key of chart 3: present exactly when both `year_added`
and `type` are present, as with `groupby(['year_added', 'type'])`, which
drops rows with a `NaN` in either key. -/
def pairKey (r : Record) : Option (Int × String) :=
  match r.year_added, r.type with
  | some y, some t => some (y, t)
  | _, _ => none

/-- The rows that reach some group of chart 3. -/
def timelineRows (rows : List Record) : List Record :=
  rows.filter (fun r => (pairKey r).isSome)

/-- Chart 3's grouped counts:
`filtered_df.groupby(['year_added', 'type']).size()`. -/
def chartTimeline (rows : List Record) : List ((Int × String) × Nat) :=
  (uniqueKeep ((timelineRows rows).filterMap pairKey)).map
    (fun p => (p, countVal pairKey (timelineRows rows) p))

/-- Chart 4's data: `filtered_df.dropna(subset=['duration_num'])`. -/
def scatterRows (rows : List Record) : List Record :=
  rows.filter (fun r => r.duration_num.isSome)

/-- Chart 5's per-row country explode:
`filtered_df.assign(country=....str.split(', ')).explode('country')`. -/
def explodeCountry (r : Record) : List Record :=
  match r.country with
  | none => [r]
  | some c => (pySplit c ", ").map (fun ci => { r with country := some ci })

/-- Chart 5's exploded-by-country table. -/
def countryRows (rows : List Record) : List Record :=
  rows.flatMap explodeCountry

/-- Chart 5's counts: `exploded_countries['country'].value_counts()`. -/
def country_counts (rows : List Record) : List (String × Nat) :=
  value_counts (fun r => r.country) (countryRows rows)

/-- The ordered set of five chart specifications returned by the
callback (the data of each figure; styling is rendering-library
territory and out of scope). -/
structure ChartSet where
  typePie : List (String × Nat)
  genreBar : List (String × Nat)
  timeline : List ((Int × String) × Nat)
  durationScatter : List Record
  countryMap : List (String × Nat)
deriving DecidableEq, Repr

/-- The pure recomputation of all five charts from the prepared table
and the filters (lines 130-218 of the source). -/
def recompute (rows : List Record) (f : Filters) : ChartSet :=
  let fd := filtered_df rows f
  { typePie := value_counts (fun r => r.type) fd
    genreBar := (value_counts (fun r => r.genres) fd).take 10
    timeline := chartTimeline fd
    durationScatter := scatterRows fd
    countryMap := country_counts fd }

/-- The state the callback can read: the module-level prepared
dataframe, never reassigned after load. -/
structure AppState where
  df : List Record
deriving DecidableEq, Repr

/-- One invocation of the Dash callback: it reads the module state and
returns the five figures; the state is passed through unchanged, since
the source never writes to `df` inside the callback. -/
def update_dashboard (s : AppState) (f : Filters) : AppState × ChartSet :=
  (s, recompute s.df f)

/-- A whole session: the callback fired once for every filter change,
threading the module state through the calls. -/
def runSeq (s : AppState) : List Filters → AppState × List ChartSet
  | [] => (s, [])
  | f :: fs =>
    let sc := update_dashboard s f
    let rest := runSeq sc.1 fs
    (rest.1, sc.2 :: rest.2)

/-- Rows counted by chart 2: `value_counts` on the `genres` column skips
rows whose genre cell is absent. -/
def chart2Rows (rows : List Record) : List Record :=
  rows.filter (fun r => r.genres.isSome)

/-- A row contributes to chart 1's type counts when it survives the
three filter stages and its `type` cell is present (`value_counts`
skips `NaN`). -/
def contributesChart1 (rows : List Record) (f : Filters) (r : Record) : Prop :=
  r ∈ filtered_df rows f ∧ r.type.isSome = true

/-! Concrete inputs used by the concrete-scenario theorems below. -/

/-- A date parser that fails on every input; the sample rows below all
have an absent `date_added`, so any parser would do. -/
def noDate : String → Option Int := fun _ => none

/-- First record of the spec's concrete scenario. -/
def rawMovie : RawRecord :=
  { title := none, type := some "Movie", country := some "India", date_added := none,
    release_year := some 2019, rating := none, duration := some "90 min",
    listed_in := some "Comedy" }

/-- Second record of the spec's concrete scenario. -/
def rawShow : RawRecord :=
  { title := none, type := some "TV Show", country := some "USA", date_added := none,
    release_year := some 2020, rating := none, duration := some "2 Seasons",
    listed_in := some "Drama, Comedy" }

/-- The prepared table of the spec's concrete scenario. -/
def scenarioRows : List Record := prepare noDate [rawMovie, rawShow]

/-- The scenario's filters: years 2019-2020, type All, country All. -/
def scenarioFilters : Filters :=
  { yearLo := 2019, yearHi := 2020, selectedType := "All", selectedCountry := "All" }

/-- A single movie carrying two genres. -/
def rawDual : RawRecord :=
  { title := none, type := some "Movie", country := some "X", date_added := none,
    release_year := some 2000, rating := none, duration := none,
    listed_in := some "Drama, Comedy" }

/-- Pass-everything filters for rows released in 2000. -/
def allFilters2000 : Filters :=
  { yearLo := 2000, yearHi := 2000, selectedType := "All", selectedCountry := "All" }

/-- A record with an absent `listed_in` (and absent date and duration). -/
def rawNoGenres : RawRecord :=
  { title := none, type := some "Movie", country := some "X", date_added := none,
    release_year := some 2000, rating := none, duration := none, listed_in := none }

/-- A raw record with the given country and genre list, everything else
fixed. -/
def mkRaw (co li : String) : RawRecord :=
  { title := none, type := some "Movie", country := some co, date_added := none,
    release_year := some 2000, rating := none, duration := none, listed_in := some li }

/-- Two one-genre records of the given country. -/
def twoOf (co : String) : List RawRecord := [mkRaw co "g1", mkRaw co "g1"]

/-- Eleven distinct countries: country "A" appears on one record with
three genres, countries "B1".."B10" on two one-genre records each. -/
def dropdownRaws : List RawRecord :=
  mkRaw "A" "g1, g2, g3" ::
    (["B1", "B2", "B3", "B4", "B5", "B6", "B7", "B8", "B9", "B10"].flatMap twoOf)

/-- Claim C1: at the spec's two-record scenario with filters
(year range 2019-2020, type All, country All), the claim expects chart-1
counts Movie 1, TVShow 1.  The code instead yields Movie 1, TV Show 2:
the whole table is genre-exploded at load (line 46 of the source), so
the two-genre show is counted once per genre by chart 1.  Chart 2 gives
Comedy 2, Drama 1 exactly as the claim states. -/
theorem c1_scenario_counts :
    (recompute scenarioRows scenarioFilters).typePie = [("TV Show", 2), ("Movie", 1)] ∧
    (recompute scenarioRows scenarioFilters).genreBar = [("Comedy", 2), ("Drama", 1)] ∧
    typeCount (filtered_df scenarioRows scenarioFilters) "Movie" = 1 ∧
    typeCount (filtered_df scenarioRows scenarioFilters) "TV Show" = 2 ∧
    genreCount (filtered_df scenarioRows scenarioFilters) "Comedy" = 2 ∧
    genreCount (filtered_df scenarioRows scenarioFilters) "Drama" = 1 := by
  decide

/-- Claim C2: charts 1, 3, 4 and 5 are claimed to be computed from the
non-exploded table, each source record counted at most once.  In the
code the module-level table is replaced by its genre-exploded version
before any chart is computed, so a single two-genre movie is counted
twice by chart 1's type counts. -/
theorem c2_explode_double_count :
    (prepare noDate [rawDual]).length = 2 ∧
    typeCount (filtered_df (prepare noDate [rawDual]) allFilters2000) "Movie" = 2 := by
  decide

/-- Claim C3: the country dropdown is claimed to rank raw country values
counting each prepared record once.  The code ranks them on the
genre-exploded table, weighting each record by its number of genres:
with one three-genre record of country "A" and two one-genre records of
each of "B1".."B10", the options include "A" (whose raw count is 1) and
omit "B10" (whose raw count is 2). -/
theorem c3_dropdown_weighted_by_genres :
    "A" ∈ countryOptions (prepare noDate dropdownRaws) ∧
    "B10" ∉ countryOptions (prepare noDate dropdownRaws) ∧
    (dropdownRaws.filter (fun r => decide (r.country = some "A"))).length = 1 ∧
    (dropdownRaws.filter (fun r => decide (r.country = some "B10"))).length = 2 := by
  decide

/-- Claim C4, counterexample: a record whose `listed_in` is absent is
claimed to contribute zero rows to the exploded view, but pandas
`explode` keeps the `NaN` scalar as a single row, so the record
contributes exactly one row (with an absent genre). -/
theorem c4_counterexample :
    (explodeRecord noDate rawNoGenres).length ≠ 0 ∧
    (explodeRecord noDate rawNoGenres).map (fun r => r.genres) = [none] := by
  decide

/-- Projection of the genre cell out of a cleaned row. -/
theorem baseRecord_genres (dateYear : String → Option Int) (r : RawRecord)
    (g : Option String) : (baseRecord dateYear r g).genres = g := rfl

/-- Claim C4, amended: a record with absent `listed_in` contributes
exactly one exploded row, carrying an absent genre; a record with a
present `listed_in` of N ", "-separated tokens contributes exactly N
exploded rows, one per token, in order. -/
theorem c4_explode_row_multiplicity (dateYear : String → Option Int) (r : RawRecord) :
    (explodeRecord dateYear r).map (fun x => x.genres) =
      match r.listed_in with
      | none => [none]
      | some s => (pySplit s ", ").map some := by
  cases h : r.listed_in with
  | none => simp [explodeRecord, genreList, h, baseRecord_genres]
  | some s =>
    simp [explodeRecord, genreList, h, List.map_map, Function.comp, baseRecord_genres]

/-- Claim C5: the year filter keeps exactly the rows whose
`release_year` is present and lies within the selected range, inclusive
on both ends; in particular a row with an absent `release_year` never
survives the year stage. -/
theorem c5_year_filter_range (rows : List Record) (f : Filters) (r : Record) :
    r ∈ yearFiltered rows f ↔
      r ∈ rows ∧ ∃ y, r.release_year = some y ∧ f.yearLo ≤ y ∧ y ≤ f.yearHi := by
  unfold yearFiltered yearKeep
  rw [List.mem_filter]
  cases hy : r.release_year with
  | none => simp [hy]
  | some y => simp [hy, and_assoc]

/-- Claim C6: with a non-All country filter, a row is kept exactly when
the selected name occurs as a substring of its raw (possibly
multi-country) country cell, and a row with an absent country cell is
never kept (`na=False`). -/
theorem c6_country_filter_substring (rows : List Record) (f : Filters) (r : Record)
    (hne : f.selectedCountry ≠ "All") :
    r ∈ rows.filter (countryKeep f) ↔
      r ∈ rows ∧ ∃ c, r.country = some c ∧ containsSub c f.selectedCountry = true := by
  rw [List.mem_filter]
  unfold countryKeep
  rw [if_neg hne]
  cases hc : r.country with
  | none => simp [hc]
  | some c => simp [hc]

/-- A row whose raw country cell is the two-country string
"United States, Canada". -/
def recUC : Record :=
  { title := none, type := some "Movie", country := some "United States, Canada",
    year_added := none, release_year := some 2000, rating := some "Unknown",
    duration := none, duration_num := none, duration_unit := none,
    movie_duration := none, tv_seasons := none, genres := none }

/-- Filters selecting the country "Canada". -/
def fCanada : Filters :=
  { yearLo := 2000, yearHi := 2000, selectedType := "All", selectedCountry := "Canada" }

/-- Witness for claim C6: the filter "Canada" keeps a row whose country
cell is "United States, Canada". -/
theorem c6_witness : recUC ∈ List.filter (countryKeep fCanada) [recUC] :=
  (c6_country_filter_substring [recUC] fCanada recUC (by decide)).mpr
    ⟨by simp, "United States, Canada", rfl, by decide⟩

/-- The count `value_counts` assigns to `v` is the multiplicity of `v`
among the present cells of the column. -/
theorem countVal_eq_count {β : Type} [DecidableEq β] (proj : Record → Option β)
    (rows : List Record) (v : β) :
    countVal proj rows v = (rows.filterMap proj).count v := by
  induction rows with
  | nil => rfl
  | cons r t ih =>
    unfold countVal at ih ⊢
    rw [List.filterMap_cons, List.filter_cons]
    cases hp : proj r with
    | none => simp [hp, ih]
    | some b =>
      by_cases hb : b = v
      · simp [hp, hb, ih, List.count_cons]
      · simp [hp, hb, ih, List.count_cons]

/-- Claim C7: over any filtered table, the chart-2 counts summed across
all genres (not only the displayed top 10) equal the number of
(record, genre) pairs of the filtered exploded view, i.e. the number of
its rows carrying a present genre. -/
theorem c7_genre_conservation (rows : List Record) (f : Filters) :
    ∑ g ∈ ((filtered_df rows f).filterMap (fun r => r.genres)).toFinset,
        genreCount (filtered_df rows f) g =
      ((filtered_df rows f).filterMap (fun r => r.genres)).length := by
  have h : ∀ g, genreCount (filtered_df rows f) g =
      ((filtered_df rows f).filterMap (fun r => r.genres)).count g :=
    fun g => countVal_eq_count (fun r => r.genres) (filtered_df rows f) g
  calc
    ∑ g ∈ ((filtered_df rows f).filterMap (fun r => r.genres)).toFinset,
        genreCount (filtered_df rows f) g
        = ∑ g ∈ ((filtered_df rows f).filterMap (fun r => r.genres)).toFinset,
            ((filtered_df rows f).filterMap (fun r => r.genres)).count g :=
      Finset.sum_congr rfl (fun g _ => h g)
    _ = ((filtered_df rows f).filterMap (fun r => r.genres)).length := by
      have hm := Multiset.toFinset_sum_count_eq
        (((filtered_df rows f).filterMap (fun r => r.genres) : List String) : Multiset String)
      simp only [Multiset.coe_count, Multiset.coe_card] at hm
      exact hm

/-- Claim C8: filtering is monotone.  If `f1` is at least as restrictive
as `f2` (year range contained, type and country each equal or
specialized from "All"), every row contributing to chart 1's type counts
under `f1` also contributes under `f2`. -/
theorem c8_filter_monotone (rows : List Record) (f1 f2 : Filters)
    (hlo : f2.yearLo ≤ f1.yearLo) (hhi : f1.yearHi ≤ f2.yearHi)
    (hty : f2.selectedType = f1.selectedType ∨ f2.selectedType = "All")
    (hco : f2.selectedCountry = f1.selectedCountry ∨ f2.selectedCountry = "All")
    (r : Record) (h : contributesChart1 rows f1 r) :
    contributesChart1 rows f2 r := by
  obtain ⟨hmem, hty1⟩ := h
  refine ⟨?_, hty1⟩
  unfold filtered_df yearFiltered at hmem ⊢
  simp only [List.mem_filter] at hmem ⊢
  obtain ⟨⟨⟨hr, hy⟩, ht⟩, hc⟩ := hmem
  refine ⟨⟨⟨hr, ?_⟩, ?_⟩, ?_⟩
  · unfold yearKeep at hy ⊢
    cases hyy : r.release_year with
    | none =>
      rw [hyy] at hy
      exact Bool.noConfusion hy
    | some y =>
      rw [hyy] at hy
      have hy2 : (decide (f1.yearLo ≤ y) && decide (y ≤ f1.yearHi)) = true := hy
      show (decide (f2.yearLo ≤ y) && decide (y ≤ f2.yearHi)) = true
      simp only [Bool.and_eq_true, decide_eq_true_eq] at hy2 ⊢
      omega
  · unfold typeKeep at ht ⊢
    rcases hty with h2 | h2
    · rw [h2]; exact ht
    · rw [if_pos h2]
  · unfold countryKeep at hc ⊢
    rcases hco with h2 | h2
    · rw [h2]; exact hc
    · rw [if_pos h2]

/-- A movie of 2019 from India, as one prepared row. -/
def recIndia : Record :=
  { title := none, type := some "Movie", country := some "India",
    year_added := none, release_year := some 2019, rating := some "Unknown",
    duration := none, duration_num := none, duration_unit := none,
    movie_duration := none, tv_seasons := none, genres := some "Comedy" }

/-- Narrow filters: exactly 2019, Movies, country India. -/
def fNarrow : Filters :=
  { yearLo := 2019, yearHi := 2019, selectedType := "Movie", selectedCountry := "India" }

/-- Wide filters: 2018-2020, all types, all countries. -/
def fWide : Filters :=
  { yearLo := 2018, yearHi := 2020, selectedType := "All", selectedCountry := "All" }

/-- Witness for claim C8: a row contributing under the narrow filters
also contributes under the wide ones. -/
theorem c8_witness : contributesChart1 [recIndia] fWide recIndia :=
  c8_filter_monotone [recIndia] fNarrow fWide (by decide) (by decide)
    (Or.inr rfl) (Or.inr rfl) recIndia
    (by unfold contributesChart1; exact ⟨by decide, by decide⟩)

/-- Claim C9: the callback is deterministic and stateless.  Over any
session, every invocation returns exactly the pure recomputation of the
five charts from the immutable prepared table and that invocation's
filters, and the state is left unchanged: the output of a call does not
depend on which calls preceded it, and two calls with identical filters
return identical chart sets. -/
theorem c9_recompute_stateless (s : AppState) (fs : List Filters) :
    runSeq s fs = (s, fs.map (fun f => recompute s.df f)) := by
  induction fs with
  | nil => rfl
  | cons f t ih => simp [runSeq, update_dashboard, ih]

/-- Claim C10, counterexample: a prepared row with absent `date_added`,
absent `listed_in` and absent `duration` survives the filters and is
counted by chart 1, yet chart 4's data drops it (no `duration_num`),
contradicting the claim that any row with missing `date_added`
contributes to charts 1, 2, 4 and 5. -/
theorem c10_counterexample :
    (filtered_df (prepare noDate [rawNoGenres]) allFilters2000).length = 1 ∧
    typeCount (filtered_df (prepare noDate [rawNoGenres]) allFilters2000) "Movie" = 1 ∧
    scatterRows (filtered_df (prepare noDate [rawNoGenres]) allFilters2000) = [] ∧
    chart2Rows (filtered_df (prepare noDate [rawNoGenres]) allFilters2000) = [] := by
  decide

/-- Claim C10, amended: a row with absent `year_added` reaches no group
of chart 3; it is kept by chart 4's data exactly when its `duration_num`
is present, and counted by chart 2 exactly when its genre cell is
present (it still reaches charts 1 and 5 through the filtered table). -/
theorem c10_absent_year_added (rows : List Record) (r : Record)
    (hr : r ∈ rows) (hy : r.year_added = none) :
    r ∉ timelineRows rows ∧
      (r ∈ scatterRows rows ↔ r.duration_num.isSome = true) ∧
      (r ∈ chart2Rows rows ↔ r.genres.isSome = true) := by
  refine ⟨?_, ?_, ?_⟩
  · intro hmem
    rw [timelineRows, List.mem_filter] at hmem
    obtain ⟨-, hk⟩ := hmem
    unfold pairKey at hk
    rw [hy] at hk
    simp at hk
  · rw [scatterRows, List.mem_filter]
    simp [hr]
  · rw [chart2Rows, List.mem_filter]
    simp [hr]

/-- The single prepared row produced from `rawNoGenres`. -/
def recNoMeta : Record := baseRecord noDate rawNoGenres none

/-- Witness for the amended claim C10, at the concrete metadata-free
row. -/
theorem c10_witness :
    recNoMeta ∉ timelineRows [recNoMeta] ∧
      (recNoMeta ∈ scatterRows [recNoMeta] ↔ recNoMeta.duration_num.isSome = true) ∧
      (recNoMeta ∈ chart2Rows [recNoMeta] ↔ recNoMeta.genres.isSome = true) :=
  c10_absent_year_added [recNoMeta] recNoMeta (by simp) rfl

end Netflixy
